import Mathlib

/-!
Verification of the YouTube data analysis ingestion Lambda
(`lamda_function.py`): a single-event ETL step that decodes an S3
notification, reads a raw JSON object, flattens its `items` records with
json-normalize semantics, and writes the result as a partitioned Parquet
dataset registered in the Glue catalog.

The Python source is shallowly embedded below.  Strings crossing the
S3/HTTP boundary (bucket names, object keys, the response body) are
modelled as their UTF-8 byte sequences (`List Nat`), which makes
percent-plus unescaping (`urllib.parse.unquote_plus`) an exact byte-level
function.  The pandas / awswrangler collaborators are modelled by their
documented observable behaviour: reading an object yields its parsed JSON
document, `pd.json_normalize` flattens records with dot-joined column
names, and the Parquet/catalog commit is recorded as an explicit effect.
-/

namespace LamdaFunction

/-- A parsed JSON value, as produced by reading the source object. -/
inductive Json where
  | null : Json
  | bool : Bool → Json
  | num : Int → Json
  | str : String → Json
  | arr : List Json → Json
  | obj : List (String × Json) → Json
deriving Repr

/-- Byte sequence standing for a Python `str` at the UTF-8 boundary. -/
abbrev ByteStr := List Nat

/-- UTF-8 encoding of one character (standard 1-4 byte encoder). -/
def charBytes (c : Char) : List Nat :=
  let n := c.toNat
  if n < 0x80 then [n]
  else if n < 0x800 then [0xC0 + n / 0x40, 0x80 + n % 0x40]
  else if n < 0x10000 then
    [0xE0 + n / 0x1000, 0x80 + n / 0x40 % 0x40, 0x80 + n % 0x40]
  else
    [0xF0 + n / 0x40000, 0x80 + n / 0x1000 % 0x40,
     0x80 + n / 0x40 % 0x40, 0x80 + n % 0x40]

/-- UTF-8 bytes of a Lean string literal. -/
def strBytes (s : String) : ByteStr :=
  s.data.flatMap charBytes

/-- Value of an ASCII hex digit byte, `none` for a non-hex byte.
Mirrors the digit handling of `urllib.parse.unquote`. -/
def hexDigit (b : Nat) : Option Nat :=
  if 48 ≤ b ∧ b ≤ 57 then some (b - 48)
  else if 65 ≤ b ∧ b ≤ 70 then some (b - 55)
  else if 97 ≤ b ∧ b ≤ 102 then some (b - 87)
  else none

/-- Byte-level model of urllib.parse.unquote_plus with UTF-8 encoding:
`+` (0x2B) becomes space (0x20), `%hh` with two hex digits becomes the
byte `0xhh`, an invalid escape is kept literally, and every other byte is
copied unchanged. -/
def unquote_plus : ByteStr → ByteStr
  | [] => []
  | 43 :: rest => 32 :: unquote_plus rest
  | 37 :: h :: l :: rest =>
    match hexDigit h, hexDigit l with
    | some hv, some lv => (16 * hv + lv) :: unquote_plus rest
    | _, _ => 37 :: unquote_plus (h :: l :: rest)
  | b :: rest => b :: unquote_plus rest

/-- The configuration dict returned by `validate_environment`. -/
structure EnvConfig where
  cleansed_path : String
  db_name : String
  table_name : String
  write_mode : String
deriving Repr

/-- The `required_vars` list of `validate_environment`. -/
def required_vars : List String :=
  ["s3_cleansed_layer",
   "glue_catalog_db_name",
   "glue_catalog_table_name",
   "write_data_operation"]

/-- Model of validate_environment: collects every required key absent from
the environment; raises `EnvironmentError` with that full list when
non-empty, otherwise materializes the four configuration values
unchanged. -/
def validate_environment (env : String → Option String) :
    Except (List String) EnvConfig :=
  let missing_vars := required_vars.filter (fun v => (env v).isNone)
  if missing_vars.isEmpty then
    Except.ok
      { cleansed_path := (env "s3_cleansed_layer").getD ""
        db_name := (env "glue_catalog_db_name").getD ""
        table_name := (env "glue_catalog_table_name").getD ""
        write_mode := (env "write_data_operation").getD "" }
  else
    Except.error missing_vars

/-- One flattened row: ordered column/value pairs. -/
abbrev Row := List (String × Json)

mutual

/-- Flattening of one field under its dotted column name, with
`pd.json_normalize` semantics: a nested object is expanded into
dot-joined columns, every other value (scalars and arrays alike) stays a
single column. -/
def flattenField (key : String) : Json → Row
  | Json.obj fs => flattenFields key fs
  | v => [(key, v)]

/-- Flattening of the fields of a nested object whose dotted path so far
is `key`. -/
def flattenFields (key : String) : List (String × Json) → Row
  | [] => []
  | (k, v) :: rest => flattenField (key ++ "." ++ k) v ++ flattenFields key rest

end

/-- The json-normalize flattening of the top-level fields of one record
(top-level keys carry no dot joiner). -/
def flattenTop : List (String × Json) → Row
  | [] => []
  | (k, v) :: rest => flattenField k v ++ flattenTop rest

/-- Flattening of one element of `items`: `pd.json_normalize` accepts only
mapping records, so a non-object element is a failure. -/
def flattenRecord : Json → Option Row
  | Json.obj fs => some (flattenTop fs)
  | _ => none

/-- Flattening of the whole `items` sequence, one row per record. -/
def flattenAll : List Json → Option (List Row)
  | [] => some []
  | r :: rs =>
    match flattenRecord r, flattenAll rs with
    | some row, some rows => some (row :: rows)
    | _, _ => none

/-- Appends a column name to the accumulated column list unless already
present: pandas keeps columns in order of first appearance. -/
def addCol (acc : List String) (c : String) : List String :=
  if c ∈ acc then acc else acc ++ [c]

/-- Column list of a normalized frame: union of the column names of the
rows, in order of first appearance. -/
def unionCols (rows : List Row) : List String :=
  rows.foldl (fun acc row => row.foldl (fun a kv => addCol a kv.1) acc) []

/-- The tabular result of `pd.json_normalize`. -/
structure DataFrame where
  columns : List String
  rows : List Row
deriving Repr

/-- Model of pd.json_normalize applied to the extracted record list. -/
def json_normalize (records : List Json) : Option DataFrame :=
  match flattenAll records with
  | some rows => some { columns := unionCols rows, rows := rows }
  | none => none

/-- Cell of a row at a column: `none` models the NaN a pandas frame shows
when the record of that row lacks the column. -/
def cellAt (row : Row) (c : String) : Option Json :=
  (row.find? (fun kv => kv.1 == c)).map (fun kv => kv.2)

/-- Bucket part of the s3 entry of an event record. -/
structure BucketInfo where
  name : ByteStr
deriving Repr

/-- Object part of the s3 entry of an event record: the still-escaped
key. -/
structure ObjectInfo where
  key : ByteStr
deriving Repr

/-- The `s3` payload of one notification record. -/
structure S3Info where
  bucket : BucketInfo
  object : ObjectInfo
deriving Repr

/-- One entry of the `Records` list of the event. -/
structure S3Record where
  s3 : S3Info
deriving Repr

/-- The inbound S3 notification event. -/
structure S3Event where
  Records : List S3Record
deriving Repr

/-- Reference to the source object after decoding. -/
structure SourceObjectRef where
  container : ByteStr
  key : ByteStr
deriving Repr

/-- Lines 37-38 of the handler: the bucket name and the percent-plus
unescaped key are taken from `Records[0]`; an empty `Records` list is an
`IndexError` (malformed event). -/
def decodeEvent (event : S3Event) : Option SourceObjectRef :=
  match event.Records with
  | [] => none
  | r :: _ => some { container := r.s3.bucket.name
                     key := unquote_plus r.s3.object.key }

/-- The source path built by the handler, s3://bucket/key, as bytes. -/
def s3Path (src : SourceObjectRef) : ByteStr :=
  strBytes "s3://" ++ src.container ++ [47] ++ src.key

/-- The object store: maps an `s3://` path to the parsed JSON document
stored there, `none` when no object exists at that path
(`wr.exceptions.NoFilesFound`). -/
abbrev Storage := ByteStr → Option Json

/-- First-match lookup in the field list of a JSON object. -/
def jlookup (k : String) : List (String × Json) → Option Json
  | [] => none
  | (k', v) :: rest => if k' == k then some v else jlookup k rest

/-- Model of wr.s3.read_json followed by the column selection of items:
the document must be a JSON object whose `items` field is a sequence; a
missing `items` column is a `KeyError`, a non-sequence value breaks the
frame construction -- in both cases an exception is raised before any
write. -/
def getItems : Json → Option (List Json)
  | Json.obj fs =>
    match jlookup "items" fs with
    | some (Json.arr xs) => some xs
    | _ => none
  | _ => none

/-- The failure classes of one invocation, one per exception the handler
can raise, following the taxonomy of the spec. -/
inductive PipeError where
  | envError : List String → PipeError
  | malformedEvent : PipeError
  | notFound : PipeError
  | invalidSchema : PipeError
  | writeError : PipeError
deriving Repr

/-- Externally visible side effects of one invocation. -/
inductive Effect where
  | writeAttempted : DataFrame → String → String → String → String → Effect
  | loggedError : PipeError → Effect
deriving Repr

/-- The success response of the handler. -/
structure LambdaResult where
  statusCode : Nat
  body : ByteStr
  output_location : String
  processed_rows : Nat
deriving Repr

/-- The `try` body of `lambda_handler` (lines 31-66): validate the
environment, decode the event, read the object, extract and normalize
`items`, then attempt the Parquet/catalog commit (`writeOk` tells whether
that external commit succeeds).  Returns the outcome together with the
ordered list of effects performed. -/
def pipeline (env : String → Option String) (storage : Storage)
    (writeOk : Bool) (event : S3Event) :
    Except PipeError LambdaResult × List Effect :=
  match validate_environment env with
  | Except.error ms => (Except.error (PipeError.envError ms), [])
  | Except.ok cfg =>
    match decodeEvent event with
    | none => (Except.error PipeError.malformedEvent, [])
    | some src =>
      match storage (s3Path src) with
      | none => (Except.error PipeError.notFound, [])
      | some doc =>
        match getItems doc with
        | none => (Except.error PipeError.invalidSchema, [])
        | some items =>
          match json_normalize items with
          | none => (Except.error PipeError.invalidSchema, [])
          | some df =>
            let w := Effect.writeAttempted df cfg.cleansed_path
                       cfg.db_name cfg.table_name cfg.write_mode
            if writeOk then
              (Except.ok
                { statusCode := 200
                  body := strBytes "Successfully processed " ++ src.key
                  output_location := cfg.cleansed_path
                  processed_rows := df.rows.length }, [w])
            else
              (Except.error PipeError.writeError, [w])

/-- Model of lambda_handler (lines 30-76): runs the pipeline; every raised
error is logged by one of the `except` clauses and re-raised unchanged. -/
def lambda_handler (env : String → Option String) (storage : Storage)
    (writeOk : Bool) (event : S3Event) :
    Except PipeError LambdaResult × List Effect :=
  match pipeline env storage writeOk event with
  | (Except.ok r, effs) => (Except.ok r, effs)
  | (Except.error e, effs) => (Except.error e, effs ++ [Effect.loggedError e])

/-- Whether a JSON value is an object (a mapping). -/
def Json.isObj : Json → Bool
  | Json.obj _ => true
  | _ => false

/-- A row is flat when none of its values is a nested object. -/
def isFlatRow (row : Row) : Bool :=
  row.all (fun kv => !kv.2.isObj)

/-- Environment of end-to-end scenario A: all four configuration keys
present, write mode overwrite (mirrors the local-testing block of the
source). -/
def scenarioEnv : String → Option String := fun k =>
  if k = "s3_cleansed_layer" then some "s3://test-output/"
  else if k = "glue_catalog_db_name" then some "test_db"
  else if k = "glue_catalog_table_name" then some "test_table"
  else if k = "write_data_operation" then some "overwrite"
  else none

/-- Source document of scenario A. -/
def scenarioDoc : Json :=
  Json.obj [("items", Json.arr
    [Json.obj [("a", Json.num 1), ("b", Json.obj [("c", Json.num 2)])]])]

/-- Object store of scenario A: exactly one object, at
s3://bucket/test/key.json. -/
def scenarioStorage : Storage := fun p =>
  if p = strBytes "s3://bucket/test/key.json" then some scenarioDoc else none

/-- Notification event of scenario A. -/
def scenarioEvent : S3Event :=
  { Records := [{ s3 := { bucket := { name := strBytes "bucket" }
                          object := { key := strBytes "test/key.json" } } }] }

/-- A document whose items field is present but not a sequence. -/
def badDoc : Json :=
  Json.obj [("items", Json.num 5)]

/-- Object store holding the ill-formed document at the scenario path. -/
def badStorage : Storage := fun p =>
  if p = strBytes "s3://bucket/test/key.json" then some badDoc else none

/-- A document whose items field is an empty sequence. -/
def emptyDoc : Json :=
  Json.obj [("items", Json.arr [])]

/-- Object store holding the empty-items document at the scenario path. -/
def emptyStorage : Storage := fun p =>
  if p = strBytes "s3://bucket/test/key.json" then some emptyDoc else none

/-- Flattening a list of object records succeeds and yields one row per
record. -/
theorem flattenAll_of_objs (items : List Json)
    (h : ∀ r ∈ items, ∃ fs, r = Json.obj fs) :
    ∃ rows, flattenAll items = some rows ∧ rows.length = items.length := by
  induction items with
  | nil => exact ⟨[], rfl, rfl⟩
  | cons r rs ih =>
    obtain ⟨fs, hfs⟩ := h r (List.mem_cons_self r rs)
    obtain ⟨rows, hrows, hlen⟩ := ih (fun x hx => h x (List.mem_cons_of_mem _ hx))
    refine ⟨flattenTop fs :: rows, ?_, by simp [hlen]⟩
    subst hfs
    simp [flattenAll, flattenRecord, hrows]

/-- Membership after inserting one column name. -/
theorem mem_addCol {acc : List String} {x c : String} :
    c ∈ addCol acc x ↔ c ∈ acc ∨ c = x := by
  by_cases hx : x ∈ acc
  · simp only [addCol, if_pos hx]
    exact ⟨Or.inl, fun h => h.elim id (fun e => e ▸ hx)⟩
  · simp [addCol, if_neg hx]

/-- Membership after folding the column names of one row into the
accumulator. -/
theorem mem_foldl_addCol (row : Row) : ∀ (acc : List String) (c : String),
    c ∈ row.foldl (fun a kv => addCol a kv.1) acc ↔
      c ∈ acc ∨ ∃ kv ∈ row, kv.1 = c := by
  induction row with
  | nil => intro acc c; simp
  | cons kv rest ih =>
    intro acc c
    rw [List.foldl_cons, ih, mem_addCol]
    constructor
    · rintro ((h | h) | ⟨kv', hkv', he⟩)
      · exact Or.inl h
      · exact Or.inr ⟨kv, List.mem_cons_self _ _, h.symm⟩
      · exact Or.inr ⟨kv', List.mem_cons_of_mem _ hkv', he⟩
    · rintro (h | ⟨kv', hkv', he⟩)
      · exact Or.inl (Or.inl h)
      · rcases List.mem_cons.mp hkv' with h1 | h1
        · subst h1; exact Or.inl (Or.inr he.symm)
        · exact Or.inr ⟨kv', h1, he⟩

/-- Membership after folding the column names of a list of rows into the
accumulator. -/
theorem mem_foldl_rows (rows : List Row) : ∀ (acc : List String) (c : String),
    c ∈ rows.foldl (fun acc row => row.foldl (fun a kv => addCol a kv.1) acc) acc ↔
      c ∈ acc ∨ ∃ row ∈ rows, ∃ kv ∈ row, kv.1 = c := by
  induction rows with
  | nil => intro acc c; simp
  | cons row rest ih =>
    intro acc c
    rw [List.foldl_cons, ih, mem_foldl_addCol]
    constructor
    · rintro ((h | ⟨kv, hkv, he⟩) | ⟨row', hrow', hkv⟩)
      · exact Or.inl h
      · exact Or.inr ⟨row, List.mem_cons_self _ _, kv, hkv, he⟩
      · exact Or.inr ⟨row', List.mem_cons_of_mem _ hrow', hkv⟩
    · rintro (h | ⟨row', hrow', hkv⟩)
      · exact Or.inl (Or.inl h)
      · rcases List.mem_cons.mp hrow' with h1 | h1
        · subst h1; exact Or.inl (Or.inr hkv)
        · exact Or.inr ⟨row', h1, hkv⟩

/-- A name is a column of the normalized frame exactly when some row has
it as a key. -/
theorem mem_unionCols {rows : List Row} {c : String} :
    c ∈ unionCols rows ↔ ∃ row ∈ rows, ∃ kv ∈ row, kv.1 = c := by
  have := mem_foldl_rows rows [] c
  simpa [unionCols] using this

/-- A column absent from the keys of a row reads as null in that row. -/
theorem cellAt_eq_none {row : Row} {c : String}
    (h : c ∉ row.map Prod.fst) : cellAt row c = none := by
  unfold cellAt
  have hf : row.find? (fun kv => kv.1 == c) = none := by
    rw [List.find?_eq_none]
    intro kv hkv
    simp only [beq_iff_eq]
    intro he
    exact h (List.mem_map.mpr ⟨kv, hkv, he⟩)
  rw [hf]
  rfl

/-- A non-object value flattens to the single column it already is. -/
theorem flattenField_of_not_obj {k : String} {v : Json}
    (h : v.isObj = false) : flattenField k v = [(k, v)] := by
  cases v <;> first
    | rfl
    | exact absurd h (by simp [Json.isObj])

/-- Flattening an already-flat row is a no-op. -/
theorem flattenTop_of_flat : ∀ {fs : Row}, isFlatRow fs = true → flattenTop fs = fs := by
  intro fs
  induction fs with
  | nil => intro _; rfl
  | cons kv rest ih =>
    intro h
    obtain ⟨k, v⟩ := kv
    rw [isFlatRow, List.all_cons] at h
    have h1 : v.isObj = false := by
      rcases Bool.and_eq_true_iff.mp h with ⟨h1, _⟩
      simpa using h1
    have h2 : isFlatRow rest = true := (Bool.and_eq_true_iff.mp h).2
    show flattenField k v ++ flattenTop rest = (k, v) :: rest
    rw [flattenField_of_not_obj h1, ih h2]
    rfl

mutual

/-- Every column produced by flattening one field holds a non-object
value. -/
theorem isFlatRow_flattenField (key : String) (v : Json) :
    isFlatRow (flattenField key v) = true :=
  match v with
  | Json.obj fs => isFlatRow_flattenFields key fs
  | Json.null => rfl
  | Json.bool _ => rfl
  | Json.num _ => rfl
  | Json.str _ => rfl
  | Json.arr _ => rfl

/-- Every column produced by flattening the fields of a nested object
holds a non-object value. -/
theorem isFlatRow_flattenFields (key : String) (fs : List (String × Json)) :
    isFlatRow (flattenFields key fs) = true :=
  match fs with
  | [] => rfl
  | (k, v) :: rest => by
    have h1 := isFlatRow_flattenField (key ++ "." ++ k) v
    have h2 := isFlatRow_flattenFields key rest
    show isFlatRow (flattenField (key ++ "." ++ k) v ++ flattenFields key rest) = true
    rw [isFlatRow, List.all_append]
    rw [isFlatRow] at h1 h2
    rw [h1, h2]
    rfl

end

/-- The output of top-level flattening is always flat. -/
theorem isFlatRow_flattenTop (fs : Row) : isFlatRow (flattenTop fs) = true := by
  induction fs with
  | nil => rfl
  | cons kv rest ih =>
    obtain ⟨k, v⟩ := kv
    show isFlatRow (flattenField k v ++ flattenTop rest) = true
    rw [isFlatRow, List.all_append]
    have h1 := isFlatRow_flattenField k v
    rw [isFlatRow] at h1 ih
    rw [h1, ih]
    rfl

/-- C1: with all four configuration values present, the object at
s3://bucket/test/key.json holding one item with a=1 and a nested b.c=2,
and a successful commit, the handler returns statusCode 200, body
"Successfully processed test/key.json", the configured output location,
processed_rows 1, and the single flattened row has columns a=1 and
b.c=2. -/
theorem C1_end_to_end_scenarioA :
    lambda_handler scenarioEnv scenarioStorage true scenarioEvent =
      (Except.ok
        { statusCode := 200
          body := strBytes "Successfully processed test/key.json"
          output_location := "s3://test-output/"
          processed_rows := 1 },
       [Effect.writeAttempted
          { columns := ["a", "b.c"]
            rows := [[("a", Json.num 1), ("b.c", Json.num 2)]] }
          "s3://test-output/" "test_db" "test_table" "overwrite"]) := rfl

/-- C2: for a document whose items field holds a sequence of record
objects, flattening yields exactly one row per record, the column set of
the frame is the union of the flattened keys across all records, and a
key missing from an individual record reads as null in that row. -/
theorem C2_flatten_rowcount_columns (doc : Json) (items : List Json)
    (_hdoc : getItems doc = some items)
    (hrec : ∀ r ∈ items, ∃ fs, r = Json.obj fs) :
    ∃ df, json_normalize items = some df ∧
      df.rows.length = items.length ∧
      (∀ c, c ∈ df.columns ↔ ∃ row ∈ df.rows, c ∈ row.map Prod.fst) ∧
      (∀ row ∈ df.rows, ∀ c, c ∈ df.columns → c ∉ row.map Prod.fst →
        cellAt row c = none) := by
  obtain ⟨rows, hrows, hlen⟩ := flattenAll_of_objs items hrec
  refine ⟨{ columns := unionCols rows, rows := rows }, ?_, hlen, ?_, ?_⟩
  · simp [json_normalize, hrows]
  · intro c
    show c ∈ unionCols rows ↔ _
    rw [mem_unionCols]
    constructor
    · rintro ⟨row, hr, kv, hkv, he⟩
      exact ⟨row, hr, List.mem_map.mpr ⟨kv, hkv, he⟩⟩
    · rintro ⟨row, hr, hm⟩
      obtain ⟨kv, hkv, he⟩ := List.mem_map.mp hm
      exact ⟨row, hr, kv, hkv, he⟩
  · intro row _ c _ hnot
    exact cellAt_eq_none hnot

/-- Witness for C2 at the scenario document: one record with a nested
field. -/
theorem C2_flatten_rowcount_columns_witness :
    (getItems scenarioDoc =
      some [Json.obj [("a", Json.num 1), ("b", Json.obj [("c", Json.num 2)])]]) ∧
    (∃ df, json_normalize
        [Json.obj [("a", Json.num 1), ("b", Json.obj [("c", Json.num 2)])]] =
        some df ∧
      df.rows.length =
        [Json.obj [("a", Json.num 1), ("b", Json.obj [("c", Json.num 2)])]].length ∧
      (∀ c, c ∈ df.columns ↔ ∃ row ∈ df.rows, c ∈ row.map Prod.fst) ∧
      (∀ row ∈ df.rows, ∀ c, c ∈ df.columns → c ∉ row.map Prod.fst →
        cellAt row c = none)) :=
  ⟨rfl,
   C2_flatten_rowcount_columns scenarioDoc _ rfl
     (by
       intro r hr
       simp only [List.mem_singleton] at hr
       exact ⟨_, hr⟩)⟩

/-- C3: when any of the four required configuration keys is absent,
validation fails in one shot with exactly the set of missing keys and no
configuration is materialized. -/
theorem C3_missing_config_keys (env : String → Option String)
    (h : ∃ k ∈ required_vars, env k = none) :
    ∃ ms, validate_environment env = Except.error ms ∧
      ∀ k, k ∈ ms ↔ k ∈ required_vars ∧ env k = none := by
  obtain ⟨k0, hk0, hnone⟩ := h
  have hmem : k0 ∈ required_vars.filter (fun v => (env v).isNone) :=
    List.mem_filter.mpr ⟨hk0, by simp [hnone]⟩
  have hne : (required_vars.filter (fun v => (env v).isNone)).isEmpty = false := by
    cases hfe : required_vars.filter (fun v => (env v).isNone) with
    | nil => rw [hfe] at hmem; cases hmem
    | cons a l => rfl
  refine ⟨required_vars.filter (fun v => (env v).isNone), ?_, ?_⟩
  · simp [validate_environment, hne]
  · intro k
    rw [List.mem_filter]
    simp [Option.isNone_iff_eq_none]

/-- Witness for C3 at the empty environment: all four keys reported. -/
theorem C3_missing_config_keys_witness :
    (∃ k ∈ required_vars, (fun _ => (none : Option String)) k = none) ∧
    (∃ ms, validate_environment (fun _ => none) = Except.error ms ∧
      ∀ k, k ∈ ms ↔ k ∈ required_vars ∧
        (fun _ => (none : Option String)) k = none) :=
  ⟨⟨"s3_cleansed_layer", by simp [required_vars], rfl⟩,
   C3_missing_config_keys (fun _ => none)
     ⟨"s3_cleansed_layer", by simp [required_vars], rfl⟩⟩

/-- C4: when the stored document lacks an items sequence, the handler
fails with the invalid-schema error, logging and re-raising it, and the
write step is never reached. -/
theorem C4_invalid_schema_halts (env : String → Option String)
    (cfg : EnvConfig) (storage : Storage) (writeOk : Bool) (event : S3Event)
    (src : SourceObjectRef) (doc : Json)
    (hcfg : validate_environment env = Except.ok cfg)
    (hev : decodeEvent event = some src)
    (hdoc : storage (s3Path src) = some doc)
    (hbad : getItems doc = none) :
    lambda_handler env storage writeOk event =
      (Except.error PipeError.invalidSchema,
       [Effect.loggedError PipeError.invalidSchema]) ∧
    ∀ df p d t m, Effect.writeAttempted df p d t m ∉
      (lambda_handler env storage writeOk event).2 := by
  have hp : pipeline env storage writeOk event =
      (Except.error PipeError.invalidSchema, []) := by
    simp [pipeline, hcfg, hev, hdoc, hbad]
  constructor
  · simp [lambda_handler, hp]
  · intro df p d t m
    simp [lambda_handler, hp]

/-- Witness for C4 at a document whose items field is the number 5. -/
theorem C4_invalid_schema_halts_witness :
    (validate_environment scenarioEnv = Except.ok
      { cleansed_path := "s3://test-output/", db_name := "test_db"
        table_name := "test_table", write_mode := "overwrite" }) ∧
    (decodeEvent scenarioEvent = some
      { container := strBytes "bucket", key := strBytes "test/key.json" }) ∧
    (badStorage (s3Path
      { container := strBytes "bucket", key := strBytes "test/key.json" }) =
      some badDoc) ∧
    (getItems badDoc = none) ∧
    (lambda_handler scenarioEnv badStorage true scenarioEvent =
      (Except.error PipeError.invalidSchema,
       [Effect.loggedError PipeError.invalidSchema]) ∧
     ∀ df p d t m, Effect.writeAttempted df p d t m ∉
       (lambda_handler scenarioEnv badStorage true scenarioEvent).2) :=
  ⟨rfl, rfl, rfl, rfl,
   C4_invalid_schema_halts scenarioEnv _ badStorage true scenarioEvent _
     badDoc rfl rfl rfl rfl⟩

/-- C5: decoding a valid notification with container B and escaped key K
yields the source reference with container B and the percent-plus
unescaped key. -/
theorem C5_event_decoding (B K : ByteStr) (rest : List S3Record) :
    decodeEvent
      { Records := { s3 := { bucket := { name := B }
                             object := { key := K } } } :: rest } =
      some { container := B, key := unquote_plus K } := rfl

/-- C6: only the first entry of the Records list affects the invocation:
the handler behaves identically on a multi-record event and on the event
truncated to its first record. -/
theorem C6_first_record_only (env : String → Option String)
    (storage : Storage) (writeOk : Bool) (r : S3Record)
    (rest : List S3Record) :
    lambda_handler env storage writeOk { Records := r :: rest } =
      lambda_handler env storage writeOk { Records := [r] } := rfl

/-- C7: flattening is structurally idempotent: an already-flat row is
left unchanged, and flattening a flattened row changes nothing. -/
theorem C7_flatten_idempotent (fs : Row) :
    (isFlatRow fs = true → flattenTop fs = fs) ∧
    flattenTop (flattenTop fs) = flattenTop fs :=
  ⟨fun h => flattenTop_of_flat h,
   flattenTop_of_flat (isFlatRow_flattenTop fs)⟩

/-- Witness for C7 at the flat row a=1. -/
theorem C7_flatten_idempotent_witness :
    isFlatRow [("a", Json.num 1)] = true ∧
    flattenTop [("a", Json.num 1)] = [("a", Json.num 1)] :=
  ⟨rfl, (C7_flatten_idempotent [("a", Json.num 1)]).1 rfl⟩

/-- C8: every pipeline failure is logged and re-raised unchanged, and a
successful pipeline run is returned unchanged: the handler never converts
a failure into a normal response and applies no recovery. -/
theorem C8_log_and_reraise (env : String → Option String)
    (storage : Storage) (writeOk : Bool) (event : S3Event) :
    (∀ e effs, pipeline env storage writeOk event = (Except.error e, effs) →
      lambda_handler env storage writeOk event =
        (Except.error e, effs ++ [Effect.loggedError e])) ∧
    (∀ r effs, pipeline env storage writeOk event = (Except.ok r, effs) →
      lambda_handler env storage writeOk event = (Except.ok r, effs)) := by
  constructor <;> intro a effs h <;> simp [lambda_handler, h]

/-- Witness for C8 at the empty environment: the configuration error is
logged and re-raised. -/
theorem C8_log_and_reraise_witness :
    (pipeline (fun _ => none) (fun _ => none) true { Records := [] } =
      (Except.error (PipeError.envError required_vars), [])) ∧
    (lambda_handler (fun _ => none) (fun _ => none) true { Records := [] } =
      (Except.error (PipeError.envError required_vars),
       [] ++ [Effect.loggedError (PipeError.envError required_vars)])) :=
  ⟨rfl,
   (C8_log_and_reraise (fun _ => none) (fun _ => none) true
     { Records := [] }).1 (PipeError.envError required_vars) [] rfl⟩

/-- C9: an empty items sequence is not a data error: the transform yields
zero rows, the write is still invoked, and on a successful commit the
handler returns statusCode 200 with processed_rows 0. -/
theorem C9_empty_items_ok (env : String → Option String) (cfg : EnvConfig)
    (storage : Storage) (event : S3Event) (src : SourceObjectRef)
    (doc : Json)
    (hcfg : validate_environment env = Except.ok cfg)
    (hev : decodeEvent event = some src)
    (hdoc : storage (s3Path src) = some doc)
    (hitems : getItems doc = some []) :
    lambda_handler env storage true event =
      (Except.ok
        { statusCode := 200
          body := strBytes "Successfully processed " ++ src.key
          output_location := cfg.cleansed_path
          processed_rows := 0 },
       [Effect.writeAttempted { columns := [], rows := [] }
          cfg.cleansed_path cfg.db_name cfg.table_name cfg.write_mode]) := by
  have hp : pipeline env storage true event =
      (Except.ok
        { statusCode := 200
          body := strBytes "Successfully processed " ++ src.key
          output_location := cfg.cleansed_path
          processed_rows := 0 },
       [Effect.writeAttempted { columns := [], rows := [] }
          cfg.cleansed_path cfg.db_name cfg.table_name cfg.write_mode]) := by
    simp [pipeline, hcfg, hev, hdoc, hitems, json_normalize, flattenAll,
      unionCols]
  simp [lambda_handler, hp]

/-- Witness for C9 at the empty-items document. -/
theorem C9_empty_items_ok_witness :
    (validate_environment scenarioEnv = Except.ok
      { cleansed_path := "s3://test-output/", db_name := "test_db"
        table_name := "test_table", write_mode := "overwrite" }) ∧
    (decodeEvent scenarioEvent = some
      { container := strBytes "bucket", key := strBytes "test/key.json" }) ∧
    (emptyStorage (s3Path
      { container := strBytes "bucket", key := strBytes "test/key.json" }) =
      some emptyDoc) ∧
    (getItems emptyDoc = some []) ∧
    (lambda_handler scenarioEnv emptyStorage true scenarioEvent =
      (Except.ok
        { statusCode := 200
          body := strBytes "Successfully processed " ++
            strBytes "test/key.json"
          output_location := "s3://test-output/"
          processed_rows := 0 },
       [Effect.writeAttempted { columns := [], rows := [] }
          "s3://test-output/" "test_db" "test_table" "overwrite"])) :=
  ⟨rfl, rfl, rfl, rfl,
   C9_empty_items_ok scenarioEnv _ emptyStorage scenarioEvent _ emptyDoc
     rfl rfl rfl rfl⟩

/-- C10: configuration validation checks only the presence of the four
keys: with all four present, it succeeds and returns every value
unchanged, whatever string the write mode holds. -/
theorem C10_presence_only_validation (env : String → Option String)
    (p d t w : String)
    (h1 : env "s3_cleansed_layer" = some p)
    (h2 : env "glue_catalog_db_name" = some d)
    (h3 : env "glue_catalog_table_name" = some t)
    (h4 : env "write_data_operation" = some w) :
    validate_environment env = Except.ok
      { cleansed_path := p, db_name := d, table_name := t,
        write_mode := w } := by
  simp [validate_environment, required_vars, h1, h2, h3, h4]

/-- Witness for C10 at an environment whose write mode is the
unrecognized string upsert. -/
theorem C10_presence_only_validation_witness :
    ((fun k => if k = "write_data_operation" then some "upsert"
               else some "v") "s3_cleansed_layer" = some "v") ∧
    ((fun k => if k = "write_data_operation" then some "upsert"
               else some "v") "glue_catalog_db_name" = some "v") ∧
    ((fun k => if k = "write_data_operation" then some "upsert"
               else some "v") "glue_catalog_table_name" = some "v") ∧
    ((fun k => if k = "write_data_operation" then some "upsert"
               else some "v") "write_data_operation" = some "upsert") ∧
    (validate_environment
      (fun k => if k = "write_data_operation" then some "upsert"
                else some "v") = Except.ok
      { cleansed_path := "v", db_name := "v", table_name := "v",
        write_mode := "upsert" }) :=
  ⟨rfl, rfl, rfl, rfl,
   C10_presence_only_validation _ "v" "v" "v" "upsert" rfl rfl rfl rfl⟩

end LamdaFunction
